import Mathlib

/-!
# Verification of the kairos DCA decision-and-execution core

Shallow embedding of the decision-relevant parts of the `kairos` repository:
the indicator engine (`IndicatorsService`), the decision engine
(`DecisionService`), the allowance tracker (`SchedulerService.checkDailyAllowance`),
and the execution orchestrator (`ExecutionService`, `formatErrorMessage`).

JavaScript `number` values are modelled as exact rationals (`ℚ`); `bigint`
values as `ℕ`; `number | null` as `Option ℚ`; thrown exceptions as
`Except String`.  External asynchronous collaborators (indexer, chain RPC,
database) are modelled by passing their results in as explicit arguments.
-/

namespace Kairos

/-- `'bullish' | 'bearish' | 'neutral'` trend literal union. -/
inductive Trend where
  | bullish
  | bearish
  | neutral
  deriving DecidableEq, Repr

/-- The `Indicators` record produced by `IndicatorsService.analyzeMarket`
(src/unnamed/part_001).  `ma7`/`ma30` are `number | undefined`. -/
structure Indicators where
  volatility : ℚ
  ma7 : Option ℚ
  ma30 : Option ℚ
  trend : Trend
  priceChange24h : ℚ
  volumeRatio : ℚ
  liquidityScore : ℚ
  deriving DecidableEq, Repr

/-- `Math.min` on rationals (an executable `if`, so that concrete witnesses
reduce inside the kernel; equal to Mathlib's `min` by `rmin_eq_min`). -/
def rmin (a b : ℚ) : ℚ := if a ≤ b then a else b

/-- `Math.max` on rationals (see `rmin`). -/
def rmax (a b : ℚ) : ℚ := if a ≤ b then b else a

/-- `clamp(value, min, max) = Math.max(min, Math.min(max, value))`
(src/unnamed/part_004, math.utils). -/
def clamp (value lo hi : ℚ) : ℚ :=
  rmax lo (rmin hi value)

/-- `IndicatorsService.determineTrend(currentPrice, ma7, ma30)`
(src/unnamed/part_001, lines 76-94).  The JS guard `if (!ma7 || !ma30)` is
truthiness: it fires when an average is `null` *or equal to `0`*, so a present
but zero moving average also yields `neutral`. -/
def determineTrend (currentPrice : ℚ) (ma7 ma30 : Option ℚ) : Trend :=
  match ma7, ma30 with
  | some m7, some m30 =>
      if m7 = 0 ∨ m30 = 0 then .neutral
      else if m7 > m30 ∧ currentPrice > m7 then .bullish
      else if m7 < m30 ∧ currentPrice < m7 then .bearish
      else .neutral
  | _, _ => .neutral

/-- JavaScript `x.toFixed(2)`: the integer `n` closest to `x·100` (ties go to
the larger `n`, per the ECMAScript `toFixed` algorithm), rendered with two
decimal places. -/
def ratToFixed2 (q : ℚ) : String :=
  let n : ℤ := ⌊q * 100 + 1/2⌋
  let sign := if n < 0 then "-" else ""
  let a := n.natAbs
  sign ++ toString (a / 100) ++ "." ++
    (if a % 100 < 10 then "0" else "") ++ toString (a % 100)

/-- Result record of `IndicatorsService.shouldBuy`. -/
structure BuyDecision where
  should : Bool
  reason : String
  confidence : ℚ
  deriving DecidableEq, Repr

/-- Volatility block of `IndicatorsService.shouldBuy` (src/unnamed/part_001,
lines 118-125), acting on the `(reasons, score)` state. -/
def buyVolatilityStep (i : Indicators) (st : List String × ℚ) : List String × ℚ :=
  if i.volatility < 2 then
    (st.1 ++ ["Low volatility detected"], st.2 + 1/10)
  else if i.volatility > 10 then
    (st.1 ++ ["High volatility - reducing confidence"], st.2 - 2/10)
  else st

/-- Trend block of `shouldBuy` (lines 127-134). -/
def buyTrendStep (i : Indicators) (st : List String × ℚ) : List String × ℚ :=
  if i.trend = .bullish then
    (st.1 ++ ["Bullish trend detected"], st.2 + 2/10)
  else if i.trend = .bearish then
    (st.1 ++ ["Bearish trend - good buying opportunity"], st.2 + 1/10)
  else st

/-- Price-dip block of `shouldBuy` (lines 136-140). -/
def buyDipStep (i : Indicators) (st : List String × ℚ) : List String × ℚ :=
  if i.priceChange24h < -5 then
    (st.1 ++ ["Price dipped " ++ ratToFixed2 i.priceChange24h ++ "%"], st.2 + 3/10)
  else st

/-- Liquidity block of `shouldBuy` (lines 142-149). -/
def buyLiquidityStep (i : Indicators) (st : List String × ℚ) : List String × ℚ :=
  if i.liquidityScore < 3/10 then
    (st.1 ++ ["Low liquidity - reducing size"], st.2 - 2/10)
  else if i.liquidityScore > 7/10 then
    (st.1 ++ ["Good liquidity available"], st.2 + 1/10)
  else st

/-- Volume block of `shouldBuy` (lines 151-155). -/
def buyVolumeStep (i : Indicators) (st : List String × ℚ) : List String × ℚ :=
  if i.volumeRatio > 2 then
    (st.1 ++ ["High volume spike detected"], st.2 - 1/10)
  else st

/-- Final assembly of `shouldBuy` (lines 157-164): threshold, clamp,
joined reasons with the `|| 'Normal market conditions'` default. -/
def buyFinish (st : List String × ℚ) : BuyDecision :=
  { should := decide (st.2 > 4/10)
    reason := if st.1 = [] then "Normal market conditions"
              else String.intercalate ", " st.1
    confidence := rmax 0 (rmin 1 st.2) }

/-- `IndicatorsService.shouldBuy(indicators)` (src/unnamed/part_001,
lines 114-165): the five rule blocks applied in source order to the initial
state `([], 0.5)`, then the final assembly. -/
def shouldBuy (indicators : Indicators) : BuyDecision :=
  buyFinish (buyVolumeStep indicators
    (buyLiquidityStep indicators
      (buyDipStep indicators
        (buyTrendStep indicators
          (buyVolatilityStep indicators ([], 1/2))))))

/-- The subset of the Prisma `DCAStrategy` row that the decision engine
reads.  `baseAmount` is an integer amount in smallest token units. -/
structure DCAStrategy where
  baseAmount : ℕ
  enableSmartSizing : Bool
  enableVolatilityAdjustment : Bool
  enableLiquidityCheck : Bool
  deriving DecidableEq, Repr

/-- `{ price, timestamp }` record returned by `indexerService.getCurrentPrice`;
only `price` is read by the decision engine. -/
structure PriceData where
  price : ℚ
  deriving DecidableEq, Repr

/-- The indicator summary embedded in an `ExecutionDecision`. -/
structure IndicatorSummary where
  price : ℚ
  volatility : ℚ
  liquidity : ℚ
  trend : Trend
  deriving DecidableEq, Repr

/-- `ExecutionDecision` as produced by `DecisionService.shouldExecute`.
`recommendedAmount` is a `bigint`, modelled as `ℕ`. -/
structure ExecutionDecision where
  shouldExecute : Bool
  recommendedAmount : ℕ
  reason : String
  confidence : ℚ
  indicators : IndicatorSummary
  deriving DecidableEq, Repr

/-- The multiplier accumulated by `DecisionService.calculateSmartAmount`
(src/unnamed/part_002, lines 97-124) *before* the final clamp: starts at 1.0,
then volatility adjustment (if enabled), dip adjustment, liquidity adjustment
(if enabled), each an `if`/`else if` chain in source order. -/
def smartMultiplierRaw (indicators : Indicators) (strategy : DCAStrategy) : ℚ :=
  let m : ℚ := 1
  -- Volatility adjustment
  let m :=
    if strategy.enableVolatilityAdjustment then
      if indicators.volatility < 2 then m * (11/10)
      else if indicators.volatility > 10 then m * (7/10)
      else m
    else m
  -- Price dip adjustment (buy more on dips)
  let m :=
    if indicators.priceChange24h < -10 then m * (13/10)
    else if indicators.priceChange24h < -5 then m * (23/20)
    else m
  -- Liquidity adjustment
  let m :=
    if strategy.enableLiquidityCheck then
      if indicators.liquidityScore < 3/10 then m * (1/2)
      else if indicators.liquidityScore > 8/10 then m * (11/10)
      else m
    else m
  m

/-- The multiplier of `calculateSmartAmount` after the final
`clamp(multiplier, 0.5, 2.0)` (src/unnamed/part_002, line 127). -/
def smartMultiplier (indicators : Indicators) (strategy : DCAStrategy) : ℚ :=
  clamp (smartMultiplierRaw indicators strategy) (1/2) 2

/-- `DecisionService.calculateSmartAmount(baseAmount, indicators, strategy)`
(src/unnamed/part_002, lines 92-132):
`BigInt(Math.floor(Number(baseAmount) * multiplier))` with the clamped
multiplier. -/
def calculateSmartAmount (baseAmount : ℕ) (indicators : Indicators)
    (strategy : DCAStrategy) : ℕ :=
  (⌊(baseAmount : ℚ) * smartMultiplier indicators strategy⌋).toNat

/-- `DecisionService.shouldExecute(strategy)` (src/unnamed/part_002,
lines 20-87).  The two awaited collaborator calls —
`indicatorsService.analyzeMarket` (which throws on missing data) and
`indexerService.getCurrentPrice` (which may throw or return `null`) — are
modelled by passing their outcomes as `Except`-valued arguments; the
surrounding `try`/`catch` becomes the `.error` branches. -/
def shouldExecute (strategy : DCAStrategy)
    (analyzeMarketResult : Except String Indicators)
    (currentPriceResult : Except String (Option PriceData)) : ExecutionDecision :=
  match analyzeMarketResult with
  | .error msg =>
      -- catch block (lines 72-86): Error decision
      { shouldExecute := false
        recommendedAmount := 0
        reason := "Error: " ++ msg
        confidence := 0
        indicators := { price := 0, volatility := 0, liquidity := 0, trend := .neutral } }
  | .ok indicators =>
      match currentPriceResult with
      | .error msg =>
          { shouldExecute := false
            recommendedAmount := 0
            reason := "Error: " ++ msg
            confidence := 0
            indicators := { price := 0, volatility := 0, liquidity := 0, trend := .neutral } }
      | .ok none =>
          -- `if (!currentPrice)` branch (lines 28-42)
          { shouldExecute := false
            recommendedAmount := 0
            reason := "No price data available"
            confidence := 0
            indicators := { price := 0
                            volatility := indicators.volatility
                            liquidity := indicators.liquidityScore
                            trend := indicators.trend } }
      | .ok (some currentPrice) =>
          let baseAmount := strategy.baseAmount
          let recommendedAmount :=
            if strategy.enableSmartSizing then
              calculateSmartAmount baseAmount indicators strategy
            else baseAmount
          let buyDecision := shouldBuy indicators
          let se := buyDecision.should && decide (indicators.liquidityScore > 2/10)
          { shouldExecute := se
            recommendedAmount := recommendedAmount
            reason := buyDecision.reason
            confidence := buyDecision.confidence
            indicators := { price := currentPrice.price
                            volatility := indicators.volatility
                            liquidity := indicators.liquidityScore
                            trend := indicators.trend } }

/-! ## Allowance tracker (`SchedulerService.checkDailyAllowance`,
src/packages/agent/src/scheduler/scheduler.service.ts, lines 143-197) -/

/-- One row of the Prisma `Execution` table, restricted to the columns read by
the daily-allowance query.  `executedAt` is an epoch timestamp in
milliseconds. -/
structure ExecutionRow where
  strategyId : String
  status : String
  executedAt : ℕ
  recommendedAmount : ℕ
  deriving DecidableEq, Repr

/-- The `periodAmount` field extracted from the user's most recent valid
`erc20-token-periodic` permission (`permissionData.permission.data.periodAmount`,
a `BigInt` in 6-decimal USDC units). -/
structure PeriodicPermission where
  periodAmount : ℕ
  deriving DecidableEq, Repr

/-- Result record of `checkDailyAllowance`. -/
structure AllowanceCheck where
  hasAllowance : Bool
  dailyLimit : ℚ
  spentToday : ℚ
  deriving DecidableEq, Repr

/-- Milliseconds per day; `todayStart.setUTCHours(0, 0, 0, 0)` truncates the
current epoch-ms clock to the preceding midnight UTC. -/
def msPerDay : ℕ := 86400000

/-- Midnight UTC of the day containing epoch-ms instant `now`. -/
def todayStartMs (now : ℕ) : ℕ := now - now % msPerDay

/-- The `spentToday` reduction: the Prisma query filters this user's strategy
ids, `status: 'executed'`, `executedAt: { gte: todayStart }`; the reduce sums
`Number(exec.recommendedAmount) / 1e6`. -/
def spentTodayUSDC (strategyIds : List String) (executions : List ExecutionRow)
    (todayStart : ℕ) : ℚ :=
  ((executions.filter fun e =>
      strategyIds.contains e.strategyId && e.status == "executed"
        && decide (todayStart ≤ e.executedAt)).map
    fun e => (e.recommendedAmount : ℚ) / 1000000).sum

/-- `SchedulerService.checkDailyAllowance(userId)`.  The permission row found
by the database (most recent valid `erc20-token-periodic` grant, or none), the
user's strategy ids and the execution table are passed in as the query
results. -/
def checkDailyAllowance (permission : Option PeriodicPermission)
    (strategyIds : List String) (executions : List ExecutionRow)
    (now : ℕ) : AllowanceCheck :=
  match permission with
  | none =>
      -- No permission = no allowance
      { hasAllowance := false, dailyLimit := 0, spentToday := 0 }
  | some p =>
      let dailyLimit : ℚ := (p.periodAmount : ℚ) / 1000000
      let spentToday := spentTodayUSDC strategyIds executions (todayStartMs now)
      { hasAllowance := decide (spentToday < dailyLimit)
        dailyLimit := dailyLimit
        spentToday := spentToday }

/-! ## Execution orchestrator: funding step
(src/packages/agent/src/execution/execution.service.ts) -/

/-- `gasBuffer = BigInt(1000000000000000)` (0.001 ETH), ETH-variant
`executeSwap`, line 131. -/
def gasBuffer : ℕ := 1000000000000000

/-- Funding step of the ETH-variant `executeSwap` (lines 123-152): the list of
delegated-transfer amounts submitted, as a function of the session account's
current balance and the swap amount.  `totalNeeded = amountIn + gasBuffer`;
fund `totalNeeded - currentBalance` only when `currentBalance < totalNeeded`. -/
def ethFundingCalls (currentBalance amountIn : ℕ) : List ℕ :=
  let totalNeeded := amountIn + gasBuffer
  if currentBalance < totalNeeded then [totalNeeded - currentBalance] else []

/-- Funding step of the USDC-variant `executeSwap` (lines 753-814): the list
of `transferUSDCToSessionAccount` amounts submitted, or the thrown error.
The interpolated balance figures of the thrown messages are elided.  The
post-transfer balance re-check (lines 800-812) happens after the single
transfer call and does not change the call count. -/
def usdcFundingCalls (usdcBalance usdcAmount : ℕ) (hasUsdcPermission : Bool)
    (userUsdcBalance : ℕ) : Except String (List ℕ) :=
  if usdcBalance < usdcAmount then
    if !hasUsdcPermission then
      .error "Insufficient USDC balance. No USDC permission found. Please grant ERC-20 token permission for USDC transfers."
    else
      let usdcNeeded := usdcAmount - usdcBalance
      if userUsdcBalance < usdcNeeded then
        .error "User has insufficient USDC balance."
      else
        .ok [usdcNeeded]
  else
    .ok []

/-! ## Error formatter (src/packages/agent/src/common/error-formatter.ts) -/

/-- The character class `[0-9a-fA-F]` of the hex-match regex. -/
def isHexDigit (c : Char) : Bool :=
  c.isDigit || ('a' ≤ c && c ≤ 'f') || ('A' ≤ c && c ≤ 'F')

/-- Longest run of hex digits at the head of the list (the greedy `{8,}`
quantifier of `/0x[0-9a-fA-F]{8,}/`). -/
def hexRun : List Char → List Char
  | [] => []
  | c :: cs => if isHexDigit c then c :: hexRun cs else []

/-- `errorMessage.match(/0x[0-9a-fA-F]{8,}/)`: first match, scanning left to
right; at the earliest position where `0x` is followed by at least 8 hex
digits, the match is `0x` plus the maximal hex-digit run. -/
def findHexMatch : List Char → Option (List Char)
  | [] => none
  | c :: cs =>
      match c, cs with
      | '0', 'x' :: rest =>
          let run := hexRun rest
          if run.length ≥ 8 then some ('0' :: 'x' :: run) else findHexMatch cs
      | _, _ => findHexMatch cs

/-- `s.replace(pat, '')` for a plain-string pattern: remove the first
occurrence only. -/
def removeFirstOcc (pat : List Char) : List Char → List Char
  | [] => []
  | c :: cs =>
      if pat.isPrefixOf (c :: cs) then (c :: cs).drop pat.length
      else c :: removeFirstOcc pat cs

/-- Single hex digit value (`parseInt` base 16 digit). -/
def hexVal (c : Char) : ℕ :=
  if c.isDigit then c.toNat - 48
  else if 'a' ≤ c && c ≤ 'f' then c.toNat - 87
  else if 'A' ≤ c && c ≤ 'F' then c.toNat - 55
  else 0

/-- `parseInt(s, 16)` on its longest parsable prefix (at the call site the
string is all hex digits, so this is a total parse). -/
def parseHexNat : List Char → ℕ → ℕ
  | [], acc => acc
  | c :: cs, acc => if isHexDigit c then parseHexNat cs (acc * 16 + hexVal c) else acc

/-- `Buffer.from(messageHex, 'hex')`: consecutive pairs of hex digits become
bytes; a trailing lone digit is dropped. -/
def hexPairsToBytes : List Char → List ℕ
  | a :: b :: rest => (hexVal a * 16 + hexVal b) :: hexPairsToBytes rest
  | _ => []

/-- `buffer.toString('utf8')` on the revert-reason bytes.  Revert reason
strings are ASCII, where UTF-8 decoding is byte-per-character. -/
def bytesToString (bytes : List ℕ) : String :=
  String.mk (bytes.map Char.ofNat)

/-- `parseHexError(hexString)` (error-formatter.ts, lines 8-29): strip the
first `0x`, require the `Error(string)` selector `08c379a0`, read the 64-char
length field after the 64-char offset field, and hex-decode that many message
bytes. -/
def parseHexError (hexString : String) : Option String :=
  let hex := removeFirstOcc ['0', 'x'] hexString.data
  if ['0', '8', 'c', '3', '7', '9', 'a', '0'].isPrefixOf hex then
    let dataStart := 8 + 64
    let lengthHex := (hex.drop dataStart).take 64
    let length := parseHexNat lengthHex 0 * 2
    let messageHex := (hex.drop (dataStart + 64)).take length
    some (bytesToString (hexPairsToBytes messageHex))
  else
    none

/-- `pat` occurs as a contiguous sublist of the given list. -/
def containsSub (pat : List Char) : List Char → Bool
  | [] => pat.isEmpty
  | c :: cs => pat.isPrefixOf (c :: cs) || containsSub pat cs

/-- JavaScript `s.includes(pat)`. -/
def jsIncludes (s pat : String) : Bool :=
  containsSub pat.data s.data

/-- The `errorMap` object of `mapContractError`, in insertion order. -/
def errorMap : List (String × String) :=
  [("ERC20PeriodTransferEnforcer:transfer-amount-exceeded",
    "Daily spending limit reached. Please grant a new permission to continue trading."),
   ("ERC20PeriodTransferEnforcer:invalid-execution-length",
    "Invalid transaction format. Please try again."),
   ("DelegationManager:invalid-delegation",
    "Permission is invalid or has been revoked."),
   ("DelegationManager:delegation-expired",
    "Permission has expired. Please grant a new permission."),
   ("Unauthorized",
    "You are not authorized to perform this action."),
   ("Insufficient allowance",
    "Token allowance is insufficient. Please approve more tokens."),
   ("Transfer amount exceeds balance",
    "Insufficient token balance in your wallet.")]

/-- `/([a-z])([A-Z])/g` replacement with `'$1 $2'`: insert a space between a
lowercase letter and the uppercase letter that follows it. -/
def camelSpace : List Char → List Char
  | a :: b :: rest =>
      if a.isLower && b.isUpper then a :: ' ' :: camelSpace (b :: rest)
      else a :: camelSpace (b :: rest)
  | l => l

/-- `/:/g` replacement with `': '`. -/
def colonSpace : List Char → List Char
  | [] => []
  | c :: cs => if c = ':' then ':' :: ' ' :: colonSpace cs else c :: colonSpace cs

/-- `mapContractError(contractError)` (error-formatter.ts, lines 92-124):
exact catalog match, then first partial (substring) catalog match in
insertion order, then the readability fallback. -/
def mapContractError (contractError : String) : String :=
  match errorMap.find? (fun p => p.1 == contractError) with
  | some p => p.2
  | none =>
      match errorMap.find? (fun p => jsIncludes contractError p.1) with
      | some p => p.2
      | none => String.mk (colonSpace (camelSpace contractError.data))

/-- `formatErrorMessage(error)` (error-formatter.ts, lines 35-87), on the
error's message string.  The `if (parsedError)` truthiness check means an
empty parsed revert string falls through to the plain-text pattern checks. -/
def formatErrorMessage (errorMessage : String) : String :=
  let hexBranch : Option String :=
    match findHexMatch errorMessage.data with
    | some m =>
        match parseHexError (String.mk m) with
        | some parsed =>
            if parsed.isEmpty then none else some (mapContractError parsed)
        | none => none
    | none => none
  match hexBranch with
  | some r => r
  | none =>
      if jsIncludes errorMessage "ERC20PeriodTransferEnforcer:transfer-amount-exceeded" then
        "Daily spending limit reached. Please grant a new permission to continue trading."
      else if jsIncludes errorMessage "insufficient funds"
          || jsIncludes errorMessage "insufficient balance" then
        "Insufficient balance in your wallet. Please add more funds."
      else if jsIncludes errorMessage "STF"
          || jsIncludes errorMessage "SafeTransferFrom" then
        "Token transfer failed. Please check your token balance and approvals."
      else if jsIncludes errorMessage "AS"
          || jsIncludes errorMessage "assertion" then
        "Swap failed due to price slippage. Try increasing slippage tolerance."
      else if jsIncludes errorMessage "out_of_gas"
          || jsIncludes errorMessage "out of gas" then
        "Transaction ran out of gas. Please try again."
      else if jsIncludes errorMessage "user rejected"
          || jsIncludes errorMessage "User denied" then
        "Transaction was cancelled by user."
      else if jsIncludes errorMessage "nonce too low" then
        "Transaction nonce error. Please try again."
      else if jsIncludes errorMessage "permission"
          && jsIncludes errorMessage "expired" then
        "Permission has expired. Please grant a new permission."
      else if errorMessage.length > 100 then
        "Transaction failed. Please try again or contact support."
      else errorMessage

/-! ## Execution orchestrator: failure handling and reconciliation -/

/-- The persisted update written by the catch block of the USDC-variant
`executeSwap` (execution.service.ts, lines 891-908). -/
structure FailedUpdate where
  status : String
  errorMessage : String
  deriving DecidableEq, Repr

/-- The `{ success, txHash?, error? }` value returned by `executeSwap`. -/
structure SwapCallResult where
  success : Bool
  txHash : Option String
  error : Option String
  deriving DecidableEq, Repr

/-- Catch block of the USDC-variant `executeSwap` (lines 891-908): format the
error, persist `status: 'failed'` with the friendly message, return
`{ success: false, error: friendlyError }` — the handler itself never
throws. -/
def executeSwapOnError (errorMessage : String) : FailedUpdate × SwapCallResult :=
  let friendlyError := formatErrorMessage errorMessage
  ({ status := "failed", errorMessage := friendlyError },
   { success := false, txHash := none, error := some friendlyError })

/-- One entry of `receipt.logs`: emitting contract address, first topic, and
the `data` word decoded as `BigInt(log.data)` (a non-negative 256-bit
value). -/
structure TxLog where
  address : String
  topic0 : String
  data : ℕ
  deriving DecidableEq, Repr

/-- `keccak256(toHex('Transfer(address,address,uint256)'))`, the ERC-20
Transfer event topic (a fixed constant). -/
def transferEventTopic : String :=
  "0xddf252ad1be2c89b69c2b068fc378daa952ba7f163c4a11628f55a4df523b3ef"

/-- Sepolia USDC token address hard-coded in `getSwapAmountsFromTx`. -/
def usdcTokenAddress : String := "0x1c7D4B196Cb0C7B01d743Fbc6116a902379C7238"

/-- Sepolia WETH token address hard-coded in `getSwapAmountsFromTx`. -/
def wethTokenAddress : String := "0xfFf9976782d46CC05630D1f6eBAb18b2324d6B14"

/-- JavaScript `s.toLowerCase()` on ASCII strings, as an executable map over
the character list. -/
def jsToLower (s : String) : String := String.mk (s.data.map Char.toLower)

/-- Result record of `getSwapAmountsFromTx`. -/
structure SwapAmounts where
  actualUsdcIn : Option ℕ
  actualWethOut : Option ℕ
  deriving DecidableEq, Repr

/-- Body of the `for (const log of receipt.logs)` loop of
`getSwapAmountsFromTx` (execution.service.ts, lines 1436-1451): for a
Transfer event, record the value when the emitter is the USDC or the WETH
contract. -/
def scanStep (acc : SwapAmounts) (log : TxLog) : SwapAmounts :=
  if log.topic0 == transferEventTopic then
    let acc :=
      if jsToLower log.address == jsToLower usdcTokenAddress then
        { acc with actualUsdcIn := some log.data }
      else acc
    if jsToLower log.address == jsToLower wethTokenAddress then
      { acc with actualWethOut := some log.data }
    else acc
  else acc

/-- The full log scan: later matching logs overwrite earlier ones. -/
def scanTransferLogs (logs : List TxLog) : SwapAmounts :=
  logs.foldl scanStep { actualUsdcIn := none, actualWethOut := none }

/-- A receipt log entry that the scan records into `actualWethOut`: a
Transfer event emitted by the WETH contract. -/
def isWethTransfer (log : TxLog) : Bool :=
  log.topic0 == transferEventTopic && jsToLower log.address == jsToLower wethTokenAddress

/-- `ExecutionService.getSwapAmountsFromTx(txHash, publicClient)`
(execution.service.ts, lines 1401-1470).  The receipt fetch (and any parsing
failure) is modelled by the `Except` argument; the catch branch (lines
1463-1469) returns both amounts `null`. -/
def getSwapAmountsFromTx (receiptResult : Except String (List TxLog)) : SwapAmounts :=
  match receiptResult with
  | .ok logs => scanTransferLogs logs
  | .error _ => { actualUsdcIn := none, actualWethOut := none }

/-- The execution-record update persisted by steps 8-11 of the USDC-variant
`executeSwap` (execution.service.ts, lines 849-881) after the swap has
confirmed with hash `txHash`.  Note the originally recommended amount is not
an input: the persisted realized amounts depend only on the receipt logs and
the oracle price. -/
structure ReconciledExecution where
  status : String
  txHash : String
  usdcAmountIn : Option ℤ
  wethAmountOut : Option ℕ
  executionPrice : ℚ
  deriving DecidableEq, Repr

/-- Steps 9-11 of the USDC-variant `executeSwap` (lines 855-881): recover the
realized amounts from the receipt, compute the USDC equivalent of the
received WETH at the fresh oracle price (skipped when either factor is zero,
by JS truthiness), and persist `status: 'executed'` with the realized
amounts.  `usdcAmountIn` prefers the calculated equivalent,
`actualUsdcEquivalent?.toString() || actualUsdcIn?.toString()`. -/
def reconcileAndPersist (txHash : String) (currentEthPrice : ℚ)
    (receiptResult : Except String (List TxLog)) : ReconciledExecution :=
  let amounts := getSwapAmountsFromTx receiptResult
  let actualUsdcEquivalent : Option ℤ :=
    match amounts.actualWethOut with
    | some w =>
        if w ≠ 0 ∧ currentEthPrice ≠ 0 then
          -- Math.floor(Number(w) / 1e18 * price * 1e6)
          some ⌊(w : ℚ) / 1000000000000000000 * currentEthPrice * 1000000⌋
        else none
    | none => none
  { status := "executed"
    txHash := txHash
    usdcAmountIn :=
      match actualUsdcEquivalent with
      | some v => some v
      | none => amounts.actualUsdcIn.map (fun n => (n : ℤ))
    wethAmountOut := amounts.actualWethOut
    executionPrice := currentEthPrice }

/-! ## Concrete inputs used by witnesses and counterexamples -/

/-- Witness strategy for the smart-sizing bounds (spec scenario B). -/
def c1wStrategy : DCAStrategy :=
  { baseAmount := 1000000, enableSmartSizing := true
    enableVolatilityAdjustment := true, enableLiquidityCheck := true }

/-- Witness snapshot for the smart-sizing bounds (spec scenario B:
volatility 1%, 24h change −12%, liquidity 0.9). -/
def c1wIndicators : Indicators :=
  { volatility := 1, ma7 := none, ma30 := none, trend := .neutral
    priceChange24h := -12, volumeRatio := 1, liquidityScore := 9/10 }

/-- Counterexample strategy for C1: smart sizing and the liquidity check
enabled, `baseAmount = 1` smallest unit. -/
def c1cexStrategy : DCAStrategy :=
  { baseAmount := 1, enableSmartSizing := true
    enableVolatilityAdjustment := false, enableLiquidityCheck := true }

/-- Counterexample snapshot for C1: liquidity 0.1 drives the multiplier to
the 0.5 clamp floor. -/
def c1cexIndicators : Indicators :=
  { volatility := 5, ma7 := none, ma30 := none, trend := .neutral
    priceChange24h := 0, volumeRatio := 1, liquidityScore := 1/10 }

/-- An ABI-encoded `Error("Unauthorized")` revert blob inside an error
message: selector `08c379a0`, 32-byte offset `0x20`, length `0x0c`, then the
12 message bytes padded to a word. -/
def c8HexRevertError : String :=
  "execution reverted 0x08c379a0"
    ++ "0000000000000000000000000000000000000000000000000000000000000020"
    ++ "000000000000000000000000000000000000000000000000000000000000000c"
    ++ "556e617574686f72697a65640000000000000000000000000000000000000000"

/-- An error message longer than 100 characters matching no known pattern. -/
def c8LongError : String :=
  "The RPC endpoint returned an unexpected response while broadcasting the transaction; please check connectivity and retry later."

/-! ## Claims -/

/-- The volatility block appends its fired message and adds its score delta;
the two branches are mutually exclusive, so the chained `else if` equals two
independent adjustments. -/
theorem buyVolatilityStep_eq (i : Indicators) (st : List String × ℚ) :
    buyVolatilityStep i st
      = (st.1 ++ ((if i.volatility < 2 then ["Low volatility detected"] else [])
            ++ (if i.volatility > 10 then ["High volatility - reducing confidence"] else [])),
         st.2 + ((if i.volatility < 2 then 1/10 else 0)
            + (if i.volatility > 10 then -(2/10) else 0))) := by
  unfold buyVolatilityStep
  rcases lt_or_le i.volatility 2 with h1 | h1
  · have h2 : ¬(i.volatility > 10) := by simp; linarith
    simp [h1, h2]
  · have h1' : ¬(i.volatility < 2) := not_lt.mpr h1
    rcases lt_or_le (10 : ℚ) i.volatility with h2 | h2
    · simp [h1', h2]
      ring
    · have h2' : ¬(i.volatility > 10) := not_lt.mpr h2
      simp [h1', h2']

/-- The trend block as two independent adjustments (a trend value is at most
one of bullish/bearish). -/
theorem buyTrendStep_eq (i : Indicators) (st : List String × ℚ) :
    buyTrendStep i st
      = (st.1 ++ ((if i.trend = Trend.bullish then ["Bullish trend detected"] else [])
            ++ (if i.trend = Trend.bearish then ["Bearish trend - good buying opportunity"] else [])),
         st.2 + ((if i.trend = Trend.bullish then 2/10 else 0)
            + (if i.trend = Trend.bearish then 1/10 else 0))) := by
  unfold buyTrendStep
  cases i.trend <;> simp

/-- The dip block as an independent adjustment. -/
theorem buyDipStep_eq (i : Indicators) (st : List String × ℚ) :
    buyDipStep i st
      = (st.1 ++ (if i.priceChange24h < -5 then
              ["Price dipped " ++ ratToFixed2 i.priceChange24h ++ "%"] else []),
         st.2 + (if i.priceChange24h < -5 then 3/10 else 0)) := by
  unfold buyDipStep
  by_cases h : i.priceChange24h < -5 <;> simp [h]

/-- The liquidity block as two independent adjustments (the `< 0.3` and
`> 0.7` branches are mutually exclusive). -/
theorem buyLiquidityStep_eq (i : Indicators) (st : List String × ℚ) :
    buyLiquidityStep i st
      = (st.1 ++ ((if i.liquidityScore < 3/10 then ["Low liquidity - reducing size"] else [])
            ++ (if i.liquidityScore > 7/10 then ["Good liquidity available"] else [])),
         st.2 + ((if i.liquidityScore < 3/10 then -(2/10) else 0)
            + (if i.liquidityScore > 7/10 then 1/10 else 0))) := by
  unfold buyLiquidityStep
  rcases lt_or_le i.liquidityScore (3/10) with h1 | h1
  · have h2 : ¬(i.liquidityScore > 7/10) := by simp; linarith
    simp [h1, h2]
    ring
  · have h1' : ¬(i.liquidityScore < 3/10) := not_lt.mpr h1
    rcases lt_or_le (7/10 : ℚ) i.liquidityScore with h2 | h2
    · simp [h1', h2]
    · have h2' : ¬(i.liquidityScore > 7/10) := not_lt.mpr h2
      simp [h1', h2']

/-- The volume block as an independent adjustment. -/
theorem buyVolumeStep_eq (i : Indicators) (st : List String × ℚ) :
    buyVolumeStep i st
      = (st.1 ++ (if i.volumeRatio > 2 then ["High volume spike detected"] else []),
         st.2 + (if i.volumeRatio > 2 then -(1/10) else 0)) := by
  unfold buyVolumeStep
  by_cases h : i.volumeRatio > 2 <;> simp [h]
  ring

/-- C2: on the happy path of the decision engine (market analysis succeeded
and a current price is present), the decision's `shouldExecute` field equals
`buyDecision.should AND liquidityScore > 0.2`; in particular liquidity at or
below `0.2` vetoes execution regardless of every other indicator. -/
theorem C2_liquidity_veto (strategy : DCAStrategy) (ind : Indicators) (pd : PriceData) :
    ((shouldExecute strategy (.ok ind) (.ok (some pd))).shouldExecute
      = ((shouldBuy ind).should && decide (ind.liquidityScore > 2/10)))
    ∧ (ind.liquidityScore ≤ 2/10 →
        (shouldExecute strategy (.ok ind) (.ok (some pd))).shouldExecute = false) := by
  constructor
  · rfl
  · intro h
    show ((shouldBuy ind).should && decide (ind.liquidityScore > 2/10)) = false
    have hlt : ¬(ind.liquidityScore > 2/10) := not_lt.mpr h
    simp [hlt]

/-- Witness for C2: a snapshot with liquidity 0.1 and otherwise favourable
conditions still yields `shouldExecute = false`. -/
theorem C2_liquidity_veto_witness :
    (shouldExecute ⟨100, false, false, false⟩
      (.ok ⟨1, none, none, .bullish, -6, 1, 1/10⟩)
      (.ok (some ⟨50⟩))).shouldExecute = false :=
  (C2_liquidity_veto ⟨100, false, false, false⟩
    ⟨1, none, none, .bullish, -6, 1, 1/10⟩ ⟨50⟩).2 (by norm_num)

/-- C3 counterexample: with both moving averages present (`ma7 = 2`,
`ma30 = 0`) and the claimed bullish condition `ma7 > ma30 ∧ price > ma7`
satisfied at `price = 3`, `determineTrend` still returns `neutral`, because
the JS guard `if (!ma7 || !ma30)` also fires on a present but zero average. -/
theorem C3_counterexample :
    some (2 : ℚ) ≠ (none : Option ℚ) ∧ some (0 : ℚ) ≠ (none : Option ℚ)
    ∧ (2 : ℚ) > 0 ∧ (3 : ℚ) > 2
    ∧ determineTrend 3 (some 2) (some 0) ≠ Trend.bullish := by
  refine ⟨by simp, by simp, by norm_num, by norm_num, by decide⟩

/-- C3 (amended): `determineTrend` returns `neutral` when either average is
absent *or equal to zero* (JS truthiness); when both are present and nonzero
it is `bullish` iff `ma7 > ma30 ∧ price > ma7`, `bearish` iff
`ma7 < ma30 ∧ price < ma7`, and ties never classify as bullish/bearish. -/
theorem C3_trend_characterization (price : ℚ) (ma7 ma30 : Option ℚ) :
    ((ma7 = none ∨ ma30 = none) → determineTrend price ma7 ma30 = Trend.neutral)
    ∧ (∀ m7 m30, ma7 = some m7 → ma30 = some m30 →
        (((m7 = 0 ∨ m30 = 0) → determineTrend price ma7 ma30 = Trend.neutral)
        ∧ (m7 ≠ 0 → m30 ≠ 0 →
            ((determineTrend price ma7 ma30 = Trend.bullish ↔ m7 > m30 ∧ price > m7)
            ∧ (determineTrend price ma7 ma30 = Trend.bearish ↔ m7 < m30 ∧ price < m7))))) := by
  rcases ma7 with _ | m7 <;> rcases ma30 with _ | m30
  · exact ⟨fun _ => rfl, fun m7 m30 h => by cases h⟩
  · exact ⟨fun _ => rfl, fun m7 m30 h => by cases h⟩
  · exact ⟨fun _ => rfl, fun m7' m30' _ h => by cases h⟩
  · refine ⟨fun h => (by rcases h with h | h <;> cases h), ?_⟩
    intro m7' m30' h7 h30
    injection h7 with h7e
    injection h30 with h30e
    subst h7e
    subst h30e
    constructor
    · intro h0
      simp only [determineTrend, if_pos h0]
    · intro hm7 hm30
      have h0 : ¬(m7 = 0 ∨ m30 = 0) := by tauto
      have hd : determineTrend price (some m7) (some m30)
          = if m7 > m30 ∧ price > m7 then Trend.bullish
            else if m7 < m30 ∧ price < m7 then Trend.bearish
            else Trend.neutral := by
        simp only [determineTrend, if_neg h0]
      rw [hd]
      constructor
      · constructor
        · intro h
          by_cases hb : m7 > m30 ∧ price > m7
          · exact hb
          · rw [if_neg hb] at h
            split_ifs at h
        · intro hb
          rw [if_pos hb]
      · constructor
        · intro h
          by_cases hb : m7 > m30 ∧ price > m7
          · rw [if_pos hb] at h
            cases h
          · rw [if_neg hb] at h
            by_cases hc : m7 < m30 ∧ price < m7
            · exact hc
            · rw [if_neg hc] at h
              cases h
        · intro hc
          have hb : ¬(m7 > m30 ∧ price > m7) := by
            rintro ⟨h1, _⟩
            exact absurd hc.1 (not_lt.mpr h1.le)
          rw [if_neg hb, if_pos hc]

/-- Witness for C3 (amended): the golden-cross case `ma7 = 2 > ma30 = 1`,
`price = 3 > ma7` classifies as bullish through the characterization. -/
theorem C3_trend_characterization_witness :
    determineTrend 3 (some 2) (some 1) = Trend.bullish :=
  ((((C3_trend_characterization 3 (some 2) (some 1)).2 2 1 rfl rfl).2
      (by norm_num) (by norm_num)).1).mpr (by norm_num)

/-- C5: the decision engine is total over its collaborator outcomes.  When
market analysis succeeds but the current price is `null`, it returns the
non-executing "No price data available" decision with amount 0 and
confidence 0; when either collaborator throws, it returns a non-executing
decision whose reason carries the error text (`Error: <message>`).  In every
case a decision record is returned — nothing propagates past this
boundary. -/
theorem C5_decision_totality (strategy : DCAStrategy) (ind : Indicators)
    (msg : String) (cpr : Except String (Option PriceData)) :
    (shouldExecute strategy (.ok ind) (.ok none)
      = { shouldExecute := false, recommendedAmount := 0
          reason := "No price data available", confidence := 0
          indicators := { price := 0, volatility := ind.volatility
                          liquidity := ind.liquidityScore, trend := ind.trend } })
    ∧ (shouldExecute strategy (.error msg) cpr
      = { shouldExecute := false, recommendedAmount := 0
          reason := "Error: " ++ msg, confidence := 0
          indicators := { price := 0, volatility := 0
                          liquidity := 0, trend := Trend.neutral } })
    ∧ (shouldExecute strategy (.ok ind) (.error msg)
      = { shouldExecute := false, recommendedAmount := 0
          reason := "Error: " ++ msg, confidence := 0
          indicators := { price := 0, volatility := 0
                          liquidity := 0, trend := Trend.neutral } }) :=
  ⟨rfl, rfl, rfl⟩

/-- C10: an error while fetching or parsing the receipt logs is absorbed by
`getSwapAmountsFromTx` (both amounts come back `null`), and the execution is
still persisted with status `executed` and absent realized amounts — never
`failed`. -/
theorem C10_reconcile_error_keeps_executed (txHash : String) (price : ℚ) (e : String) :
    getSwapAmountsFromTx (.error e) = { actualUsdcIn := none, actualWethOut := none }
    ∧ (reconcileAndPersist txHash price (.error e)).status = "executed"
    ∧ (reconcileAndPersist txHash price (.error e)).wethAmountOut = none
    ∧ (reconcileAndPersist txHash price (.error e)).usdcAmountIn = none
    ∧ (reconcileAndPersist txHash price (.error e)).status ≠ "failed" := by
  refine ⟨rfl, rfl, rfl, rfl, ?_⟩
  rw [show (reconcileAndPersist txHash price (.error e)).status = "executed" from rfl]
  decide

/-- C4: `shouldBuy` computes the score `0.5` plus the eight independent
rule adjustments (low volatility +0.1, high volatility −0.2, bullish +0.2,
bearish +0.1, 24h drop beyond −5% +0.3, liquidity < 0.3 −0.2,
liquidity > 0.7 +0.1, volume ratio > 2 −0.1); `should = score > 0.4`,
`confidence = clamp(score, 0, 1)`, and `reason` is the comma-joined list of
fired-rule messages, or "Normal market conditions" when no rule fired. -/
theorem C4_shouldBuy_characterization (i : Indicators) :
    shouldBuy i =
      (let score : ℚ := 1/2
        + (if i.volatility < 2 then 1/10 else 0)
        + (if i.volatility > 10 then -(2/10) else 0)
        + (if i.trend = Trend.bullish then 2/10 else 0)
        + (if i.trend = Trend.bearish then 1/10 else 0)
        + (if i.priceChange24h < -5 then 3/10 else 0)
        + (if i.liquidityScore < 3/10 then -(2/10) else 0)
        + (if i.liquidityScore > 7/10 then 1/10 else 0)
        + (if i.volumeRatio > 2 then -(1/10) else 0)
      let msgs : List String :=
        (if i.volatility < 2 then ["Low volatility detected"] else [])
        ++ (if i.volatility > 10 then
              ["High volatility - reducing confidence"] else [])
        ++ (if i.trend = Trend.bullish then ["Bullish trend detected"] else [])
        ++ (if i.trend = Trend.bearish then
              ["Bearish trend - good buying opportunity"] else [])
        ++ (if i.priceChange24h < -5 then
              ["Price dipped " ++ ratToFixed2 i.priceChange24h ++ "%"] else [])
        ++ (if i.liquidityScore < 3/10 then ["Low liquidity - reducing size"] else [])
        ++ (if i.liquidityScore > 7/10 then
              ["Good liquidity available"] else [])
        ++ (if i.volumeRatio > 2 then ["High volume spike detected"] else [])
      { should := decide (score > 4/10)
        reason := if msgs = [] then "Normal market conditions"
                  else String.intercalate ", " msgs
        confidence := clamp score 0 1 }) := by
  show shouldBuy i = buyFinish
    ((if i.volatility < 2 then ["Low volatility detected"] else [])
        ++ (if i.volatility > 10 then ["High volatility - reducing confidence"] else [])
        ++ (if i.trend = Trend.bullish then ["Bullish trend detected"] else [])
        ++ (if i.trend = Trend.bearish then ["Bearish trend - good buying opportunity"] else [])
        ++ (if i.priceChange24h < -5 then ["Price dipped " ++ ratToFixed2 i.priceChange24h ++ "%"] else [])
        ++ (if i.liquidityScore < 3/10 then ["Low liquidity - reducing size"] else [])
        ++ (if i.liquidityScore > 7/10 then ["Good liquidity available"] else [])
        ++ (if i.volumeRatio > 2 then ["High volume spike detected"] else []),
     1/2 + (if i.volatility < 2 then 1/10 else 0)
        + (if i.volatility > 10 then -(2/10) else 0)
        + (if i.trend = Trend.bullish then 2/10 else 0)
        + (if i.trend = Trend.bearish then 1/10 else 0)
        + (if i.priceChange24h < -5 then 3/10 else 0)
        + (if i.liquidityScore < 3/10 then -(2/10) else 0)
        + (if i.liquidityScore > 7/10 then 1/10 else 0)
        + (if i.volumeRatio > 2 then -(1/10) else 0))
  unfold shouldBuy
  rw [buyVolatilityStep_eq, buyTrendStep_eq, buyDipStep_eq, buyLiquidityStep_eq,
    buyVolumeStep_eq]
  refine congrArg buyFinish (Prod.ext ?_ ?_)
  · simp [List.append_assoc]
  · simp only
    ring

/-- The executable `rmin` is Mathlib's `min`. -/
theorem rmin_eq_min (a b : ℚ) : rmin a b = min a b := by
  unfold rmin
  rw [min_def]

/-- The executable `rmax` is Mathlib's `max`. -/
theorem rmax_eq_max (a b : ℚ) : rmax a b = max a b := by
  unfold rmax
  rw [max_def]

/-- `clamp` in lattice form. -/
theorem clamp_eq (value lo hi : ℚ) : clamp value lo hi = max lo (min hi value) := by
  unfold clamp
  rw [rmax_eq_max, rmin_eq_min]

/-- C1 counterexample: with smart sizing enabled, `baseAmount = 1` smallest
unit and a snapshot whose liquidity score drives the multiplier to the clamp
floor 0.5, the returned `recommendedAmount` is `⌊1 · 0.5⌋ = 0`, which is
strictly below the claimed lower bound `0.5 · baseAmount = 0.5`: the final
floor can leave the claimed interval. -/
theorem C1_counterexample :
    smartMultiplier c1cexIndicators c1cexStrategy = 1/2
    ∧ (shouldExecute c1cexStrategy (.ok c1cexIndicators)
        (.ok (some ⟨100⟩))).recommendedAmount = 0
    ∧ ¬((1/2 : ℚ) * (c1cexStrategy.baseAmount : ℚ)
        ≤ ((shouldExecute c1cexStrategy (.ok c1cexIndicators)
            (.ok (some ⟨100⟩))).recommendedAmount : ℚ)) := by
  have hm : smartMultiplier c1cexIndicators c1cexStrategy = 1/2 := by
    norm_num [smartMultiplier, smartMultiplierRaw, clamp, rmin, rmax,
      c1cexIndicators, c1cexStrategy]
  have hr : (shouldExecute c1cexStrategy (.ok c1cexIndicators)
      (.ok (some ⟨100⟩))).recommendedAmount = 0 := by
    show (if c1cexStrategy.enableSmartSizing = true then
        calculateSmartAmount c1cexStrategy.baseAmount c1cexIndicators c1cexStrategy
      else c1cexStrategy.baseAmount) = 0
    have hc : c1cexStrategy.enableSmartSizing = true := rfl
    rw [if_pos hc]
    unfold calculateSmartAmount
    rw [hm]
    have h1 : ((c1cexStrategy.baseAmount : ℕ) : ℚ) * (1/2) = 1/2 := by
      norm_num [c1cexStrategy]
    rw [h1]
    have h2 : ⌊(1/2 : ℚ)⌋ = 0 :=
      Int.floor_eq_zero_iff.mpr ⟨by norm_num, by norm_num⟩
    rw [h2]
    rfl
  refine ⟨hm, hr, ?_⟩
  rw [hr]
  norm_num [c1cexStrategy]

/-- C1 (amended): with smart sizing enabled, the clamped multiplier always
lies in `[0.5, 2.0]` and `recommendedAmount = ⌊baseAmount · multiplier⌋`;
hence `recommendedAmount ≤ 2 · baseAmount` and
`recommendedAmount > 0.5 · baseAmount − 1` — the flooring can undershoot the
claimed lower bound `0.5 · baseAmount` by less than one smallest unit. -/
theorem C1_smart_sizing_bounds (strategy : DCAStrategy) (ind : Indicators)
    (pd : PriceData) (hs : strategy.enableSmartSizing = true) :
    (1/2 : ℚ) ≤ smartMultiplier ind strategy
    ∧ smartMultiplier ind strategy ≤ 2
    ∧ (shouldExecute strategy (.ok ind) (.ok (some pd))).recommendedAmount
        = (⌊(strategy.baseAmount : ℚ) * smartMultiplier ind strategy⌋).toNat
    ∧ ((shouldExecute strategy (.ok ind) (.ok (some pd))).recommendedAmount : ℚ)
        ≤ 2 * (strategy.baseAmount : ℚ)
    ∧ (strategy.baseAmount : ℚ) / 2 - 1
        < ((shouldExecute strategy (.ok ind) (.ok (some pd))).recommendedAmount : ℚ) := by
  have hm : smartMultiplier ind strategy
      = max (1/2 : ℚ) (min 2 (smartMultiplierRaw ind strategy)) := by
    unfold smartMultiplier
    rw [clamp_eq]
  have hlo : (1/2 : ℚ) ≤ smartMultiplier ind strategy := by
    rw [hm]
    exact le_max_left _ _
  have hhi : smartMultiplier ind strategy ≤ 2 := by
    rw [hm]
    exact max_le (by norm_num) (min_le_left _ _)
  have hamt : (shouldExecute strategy (.ok ind) (.ok (some pd))).recommendedAmount
      = (⌊(strategy.baseAmount : ℚ) * smartMultiplier ind strategy⌋).toNat := by
    show (if strategy.enableSmartSizing = true then
        calculateSmartAmount strategy.baseAmount ind strategy
      else strategy.baseAmount) = _
    rw [if_pos hs]
    rfl
  have hb0 : (0 : ℚ) ≤ (strategy.baseAmount : ℚ) := Nat.cast_nonneg _
  have hm0 : (0 : ℚ) ≤ smartMultiplier ind strategy := by linarith
  have hprod0 : (0 : ℚ) ≤ (strategy.baseAmount : ℚ) * smartMultiplier ind strategy :=
    mul_nonneg hb0 hm0
  have hfloor0 : 0 ≤ ⌊(strategy.baseAmount : ℚ) * smartMultiplier ind strategy⌋ :=
    Int.floor_nonneg.mpr hprod0
  have hcast : (((⌊(strategy.baseAmount : ℚ) * smartMultiplier ind strategy⌋).toNat : ℕ) : ℚ)
      = ((⌊(strategy.baseAmount : ℚ) * smartMultiplier ind strategy⌋ : ℤ) : ℚ) := by
    exact_mod_cast congrArg (fun z : ℤ => (z : ℚ)) (Int.toNat_of_nonneg hfloor0)
  refine ⟨hlo, hhi, hamt, ?_, ?_⟩
  · rw [hamt, hcast]
    calc ((⌊(strategy.baseAmount : ℚ) * smartMultiplier ind strategy⌋ : ℤ) : ℚ)
        ≤ (strategy.baseAmount : ℚ) * smartMultiplier ind strategy := Int.floor_le _
      _ ≤ (strategy.baseAmount : ℚ) * 2 := mul_le_mul_of_nonneg_left hhi hb0
      _ = 2 * (strategy.baseAmount : ℚ) := by ring
  · rw [hamt, hcast]
    have h1 : (strategy.baseAmount : ℚ) * smartMultiplier ind strategy - 1
        < ((⌊(strategy.baseAmount : ℚ) * smartMultiplier ind strategy⌋ : ℤ) : ℚ) :=
      Int.sub_one_lt_floor _
    have h2 : (strategy.baseAmount : ℚ) * (1/2 : ℚ)
        ≤ (strategy.baseAmount : ℚ) * smartMultiplier ind strategy :=
      mul_le_mul_of_nonneg_left hlo hb0
    have h3 : (strategy.baseAmount : ℚ) / 2
        = (strategy.baseAmount : ℚ) * (1/2 : ℚ) := by ring
    linarith

/-- Witness for C1 (amended): the spec's scenario B — `baseAmount` 1 000 000,
volatility 1 %, 24h change −12 %, liquidity 0.9, all toggles on. -/
theorem C1_smart_sizing_bounds_witness :
    (1/2 : ℚ) ≤ smartMultiplier c1wIndicators c1wStrategy
    ∧ smartMultiplier c1wIndicators c1wStrategy ≤ 2
    ∧ (shouldExecute c1wStrategy (.ok c1wIndicators) (.ok (some ⟨100⟩))).recommendedAmount
        = (⌊(c1wStrategy.baseAmount : ℚ) * smartMultiplier c1wIndicators c1wStrategy⌋).toNat
    ∧ ((shouldExecute c1wStrategy (.ok c1wIndicators) (.ok (some ⟨100⟩))).recommendedAmount : ℚ)
        ≤ 2 * (c1wStrategy.baseAmount : ℚ)
    ∧ (c1wStrategy.baseAmount : ℚ) / 2 - 1
        < ((shouldExecute c1wStrategy (.ok c1wIndicators) (.ok (some ⟨100⟩))).recommendedAmount : ℚ) :=
  C1_smart_sizing_bounds c1wStrategy c1wIndicators ⟨100⟩ rfl

/-- C6: `checkDailyAllowance` always returns
`hasAllowance = (spentToday < dailyLimit)`; when a permission exists, the
returned `spentToday` is the sum of `recommendedAmount` (in display units)
over the user's executions with status `executed` and `executedAt` at or
after midnight UTC, across all of the user's strategies, and `dailyLimit` is
the permission's `periodAmount` in display units.  Consequently spending
exactly the limit denies further allowance and spending strictly below it
grants it. -/
theorem C6_daily_allowance (permission : Option PeriodicPermission)
    (strategyIds : List String) (executions : List ExecutionRow) (now : ℕ) :
    ((checkDailyAllowance permission strategyIds executions now).hasAllowance
      = decide ((checkDailyAllowance permission strategyIds executions now).spentToday
          < (checkDailyAllowance permission strategyIds executions now).dailyLimit))
    ∧ (∀ p, permission = some p →
        (checkDailyAllowance permission strategyIds executions now).spentToday
          = spentTodayUSDC strategyIds executions (todayStartMs now)
        ∧ (checkDailyAllowance permission strategyIds executions now).dailyLimit
          = (p.periodAmount : ℚ) / 1000000)
    ∧ ((checkDailyAllowance permission strategyIds executions now).spentToday
        = (checkDailyAllowance permission strategyIds executions now).dailyLimit
        → (checkDailyAllowance permission strategyIds executions now).hasAllowance = false)
    ∧ ((checkDailyAllowance permission strategyIds executions now).spentToday
        < (checkDailyAllowance permission strategyIds executions now).dailyLimit
        → (checkDailyAllowance permission strategyIds executions now).hasAllowance = true) := by
  rcases permission with _ | p
  · refine ⟨?_, ?_, ?_, ?_⟩
    · show false = decide ((0 : ℚ) < 0)
      simp
    · intro p hp
      cases hp
    · intro _
      rfl
    · intro h
      exact absurd h (lt_irrefl _)
  · refine ⟨rfl, ?_, ?_, ?_⟩
    · intro q hq
      injection hq with hq
      subst hq
      exact ⟨rfl, rfl⟩
    · intro h
      show decide ((checkDailyAllowance (some p) strategyIds executions now).spentToday
          < (checkDailyAllowance (some p) strategyIds executions now).dailyLimit) = false
      rw [h]
      simp
    · intro h
      show decide ((checkDailyAllowance (some p) strategyIds executions now).spentToday
          < (checkDailyAllowance (some p) strategyIds executions now).dailyLimit) = true
      simpa using h

/-- Witness for C6: a 100-USDC limit with exactly 100 USDC already executed
today across the user's strategies yields `hasAllowance = false`. -/
theorem C6_daily_allowance_witness :
    (checkDailyAllowance (some ⟨100000000⟩) ["s1", "s2"]
      [⟨"s1", "executed", 1728000000005, 60000000⟩,
       ⟨"s2", "executed", 1728000000007, 40000000⟩]
      1728000000010).hasAllowance = false :=
  (C6_daily_allowance (some ⟨100000000⟩) ["s1", "s2"]
    [⟨"s1", "executed", 1728000000005, 60000000⟩,
     ⟨"s2", "executed", 1728000000007, 40000000⟩]
    1728000000010).2.2.1 (by norm_num [checkDailyAllowance, spentTodayUSDC, todayStartMs, msPerDay])

/-- C7: in the funding step, a balance at or above the amount needed makes
zero funding (delegated-transfer) calls; a balance below it makes exactly one
call whose amount is the shortfall, never the full amount.  For the ETH
variant the amount needed is `amountIn + gasBuffer`; for the USDC variant it
is the USDC notional, and the property holds whenever the step completes
without throwing. -/
theorem C7_funding_shortfall (currentBalance amountIn usdcBalance usdcAmount
    userUsdcBalance : ℕ) (hasUsdcPermission : Bool) :
    (amountIn + gasBuffer ≤ currentBalance → ethFundingCalls currentBalance amountIn = [])
    ∧ (currentBalance < amountIn + gasBuffer →
        ethFundingCalls currentBalance amountIn = [amountIn + gasBuffer - currentBalance])
    ∧ (usdcAmount ≤ usdcBalance →
        usdcFundingCalls usdcBalance usdcAmount hasUsdcPermission userUsdcBalance = .ok [])
    ∧ (∀ calls, usdcBalance < usdcAmount →
        usdcFundingCalls usdcBalance usdcAmount hasUsdcPermission userUsdcBalance = .ok calls
        → calls = [usdcAmount - usdcBalance]) := by
  refine ⟨?_, ?_, ?_, ?_⟩
  · intro h
    unfold ethFundingCalls
    rw [if_neg (not_lt.mpr h)]
  · intro h
    unfold ethFundingCalls
    rw [if_pos h]
  · intro h
    unfold usdcFundingCalls
    rw [if_neg (not_lt.mpr h)]
  · intro calls hlt hok
    unfold usdcFundingCalls at hok
    rw [if_pos hlt] at hok
    rcases hp : hasUsdcPermission with _ | _
    · rw [hp] at hok
      simp at hok
    · rw [hp] at hok
      simp only [Bool.not_true, Bool.false_eq_true, if_false] at hok
      by_cases hu : userUsdcBalance < usdcAmount - usdcBalance
      · rw [if_pos hu] at hok
        cases hok
      · rw [if_neg hu] at hok
        injection hok with hok
        exact hok.symm

/-- Witness for C7: balance 5 against an ETH need of `10 + gasBuffer` funds
exactly the shortfall; a USDC balance of 100 against a need of 40 makes no
funding call. -/
theorem C7_funding_shortfall_witness :
    ethFundingCalls 5 10 = [10 + gasBuffer - 5]
    ∧ usdcFundingCalls 100 40 true 0 = .ok [] :=
  ⟨(C7_funding_shortfall 5 10 100 40 0 true).2.1 (by norm_num [gasBuffer]),
   (C7_funding_shortfall 5 10 100 40 0 true).2.2.1 (by norm_num)⟩

set_option maxRecDepth 40000 in
/-- C8: for every error thrown by a pipeline step, the `executeSwap` catch
handler persists `status: 'failed'` with the user-facing formatted message
and returns `{ success: false, error }` — a value, never a rethrow.  The
formatter maps known revert signatures to the curated catalog (shown here
for a plain-text enforcer revert, an ABI-encoded `Error("Unauthorized")`
revert blob, and a nonce error) and falls back to a generic message for
unrecognized errors longer than 100 characters. -/
theorem C8_failure_handling :
    (∀ e, executeSwapOnError e
      = ({ status := "failed", errorMessage := formatErrorMessage e },
         { success := false, txHash := none, error := some (formatErrorMessage e) }))
    ∧ formatErrorMessage
        "execution reverted: ERC20PeriodTransferEnforcer:transfer-amount-exceeded"
      = "Daily spending limit reached. Please grant a new permission to continue trading."
    ∧ formatErrorMessage c8HexRevertError
      = "You are not authorized to perform this action."
    ∧ formatErrorMessage c8LongError
      = "Transaction failed. Please try again or contact support."
    ∧ formatErrorMessage "nonce too low"
      = "Transaction nonce error. Please try again." :=
  ⟨fun _ => rfl, by decide, by decide, by decide, by decide⟩

/-- One scan step changes `actualWethOut` exactly when the log is a WETH
Transfer, and then records that log's value. -/
theorem scanStep_actualWethOut (acc : SwapAmounts) (log : TxLog) :
    (scanStep acc log).actualWethOut
      = if isWethTransfer log then some log.data else acc.actualWethOut := by
  unfold scanStep isWethTransfer
  by_cases h1 : (log.topic0 == transferEventTopic) = true
  · by_cases h2 : (jsToLower log.address == jsToLower wethTokenAddress) = true
    · by_cases h3 : (jsToLower log.address == jsToLower usdcTokenAddress) = true
      · simp [h1, h2, h3]
      · simp [h1, h2, h3]
    · by_cases h3 : (jsToLower log.address == jsToLower usdcTokenAddress) = true
      · simp [h1, h2, h3]
      · simp [h1, h2, h3]
  · simp [h1]

/-- The scan's `actualWethOut` is the value of the last WETH Transfer log,
or the accumulator's value when there is none. -/
theorem scan_foldl_weth (logs : List TxLog) (acc : SwapAmounts) :
    (logs.foldl scanStep acc).actualWethOut
      = ((logs.filter isWethTransfer).map TxLog.data).foldl
          (fun _ v => some v) acc.actualWethOut := by
  induction logs generalizing acc with
  | nil => rfl
  | cons log rest ih =>
      rw [List.foldl_cons, ih]
      by_cases hw : isWethTransfer log = true
      · rw [List.filter_cons_of_pos hw, List.map_cons, List.foldl_cons,
          scanStep_actualWethOut, if_pos hw]
      · rw [List.filter_cons_of_neg (by simp [hw]),
          scanStep_actualWethOut, if_neg (by simp [hw])]

/-- C9: when the confirmed transaction's logs contain exactly one WETH
(output-token) Transfer, of amount `Y`, the record persisted at
reconciliation has status `executed` and `wethAmountOut = Y`.
`reconcileAndPersist` takes no recommended-amount input at all, so the
persisted realized amount is independent of it. -/
theorem C9_reconcile_realized_out (txHash : String) (price : ℚ)
    (logs : List TxLog) (y : ℕ)
    (h : (logs.filter isWethTransfer).map TxLog.data = [y]) :
    (reconcileAndPersist txHash price (.ok logs)).wethAmountOut = some y
    ∧ (reconcileAndPersist txHash price (.ok logs)).status = "executed" := by
  have hscan : (scanTransferLogs logs).actualWethOut = some y := by
    unfold scanTransferLogs
    rw [scan_foldl_weth, h]
    rfl
  constructor
  · show (scanTransferLogs logs).actualWethOut = some y
    exact hscan
  · rfl

/-- Witness for C9: a receipt with a single WETH Transfer of 777 units
reconciles to `wethAmountOut = 777` with status `executed`. -/
theorem C9_reconcile_realized_out_witness :
    (reconcileAndPersist "0xabc" 3000
      (.ok [⟨wethTokenAddress, transferEventTopic, 777⟩])).wethAmountOut = some 777
    ∧ (reconcileAndPersist "0xabc" 3000
      (.ok [⟨wethTokenAddress, transferEventTopic, 777⟩])).status = "executed" :=
  C9_reconcile_realized_out "0xabc" 3000
    [⟨wethTokenAddress, transferEventTopic, 777⟩] 777 (by decide)

end Kairos
